import Mathlib

/-!
Verification of the dispatch-and-logging core of `dispatcher.py`.

The embedding models the Python values that can flow through
`Dispatcher.handle_message`: the decoded JSON message, the mapping returned
by a reader capability, and the shared database session object that the
dispatcher injects into the message before invoking the capability.
Python exceptions raised by the dispatcher's own code (`KeyError`,
`TypeError`, `AttributeError`) are modelled explicitly, because
`handle_message` catches only some of them; an exception a capability
raises is modelled by `Except.error` carrying its rendered description,
which is all line 152 of the source uses.
-/

set_option autoImplicit false

/-- Python values reachable in the dispatcher: the JSON-decodable values
(`json.loads` output), plus the opaque database session object that the
dispatcher stores into the message under the key `db_session`. -/
inductive PyVal where
  | none
  | bool (b : Bool)
  | int (n : Int)
  | str (s : String)
  | list (xs : List PyVal)
  | dict (fields : List (String × PyVal))
  | session

/-- Exceptions that the dispatcher's own statements can raise. -/
inductive PyExc where
  | keyError (key : String)
  | typeError
  | attributeError
  deriving DecidableEq

/-- First-match lookup in a Python dict represented as an ordered
association list with distinct keys. -/
def lookupField : List (String × PyVal) → String → Option PyVal
  | [], _ => Option.none
  | (k, v) :: rest, key => if k = key then some v else lookupField rest key

/-- Python `d[key] = v` on a dict: replace the value in place if the key is
present, otherwise append the new binding at the end. -/
def setField : List (String × PyVal) → String → PyVal → List (String × PyVal)
  | [], key, v => [(key, v)]
  | (k, w) :: rest, key, v =>
      if k = key then (key, v) :: rest else (k, w) :: setField rest key v

/-- Python `d.get(key, default)` on a dict's fields. -/
def getD (fields : List (String × PyVal)) (key : String) (default : PyVal) : PyVal :=
  match lookupField fields key with
  | some v => v
  | Option.none => default

/-- Python subscript `v[key]` with a string key: succeeds only on a dict
holding the key; a dict without the key raises `KeyError`, and any
non-dict value raises `TypeError`. -/
def pySubscript (v : PyVal) (key : String) : Except PyExc PyVal :=
  match v with
  | PyVal.dict fields =>
      match lookupField fields key with
      | some x => Except.ok x
      | Option.none => Except.error (PyExc.keyError key)
  | _ => Except.error PyExc.typeError

/-- ASCII lower-casing of one character, the fragment of Python
`str.lower` relevant to method names. -/
def asciiLowerChar (c : Char) : Char :=
  if 65 ≤ c.toNat ∧ c.toNat ≤ 90 then Char.ofNat (c.toNat + 32) else c

/-- ASCII upper-casing of one character, the fragment of Python
`str.upper` relevant to method names. -/
def asciiUpperChar (c : Char) : Char :=
  if 97 ≤ c.toNat ∧ c.toNat ≤ 122 then Char.ofNat (c.toNat - 32) else c

/-- Python `s.lower()` on a string (ASCII fragment). -/
def strLower (s : String) : String := String.mk (s.data.map asciiLowerChar)

/-- Python `s.upper()` on a string (ASCII fragment). -/
def strUpper (s : String) : String := String.mk (s.data.map asciiUpperChar)

/-- Python `v.lower()`: defined on strings, raises `AttributeError` on any
other value. -/
def pyLower : PyVal → Except PyExc String
  | PyVal.str s => Except.ok (strLower s)
  | _ => Except.error PyExc.attributeError

/-- Python `v.upper()`: defined on strings, raises `AttributeError` on any
other value. -/
def pyUpper : PyVal → Except PyExc String
  | PyVal.str s => Except.ok (strUpper s)
  | _ => Except.error PyExc.attributeError

/-- A single quote character, kept out of string literals. -/
def squote : String := String.singleton (Char.ofNat 39)

mutual

/-- Python `repr` of a value, used by `str` on containers. -/
def pyRepr : PyVal → String
  | PyVal.none => "None"
  | PyVal.bool true => "True"
  | PyVal.bool false => "False"
  | PyVal.int n => toString n
  | PyVal.str s => squote ++ s ++ squote
  | PyVal.list xs => "[" ++ pyReprItems xs ++ "]"
  | PyVal.dict fields => "\x7b" ++ pyReprFields fields ++ "\x7d"
  | PyVal.session => "<session>"

/-- Comma-separated reprs of the items of a list. -/
def pyReprItems : List PyVal → String
  | [] => ""
  | [x] => pyRepr x
  | x :: y :: rest => pyRepr x ++ ", " ++ pyReprItems (y :: rest)

/-- Comma-separated reprs of the fields of a dict. -/
def pyReprFields : List (String × PyVal) → String
  | [] => ""
  | [(k, v)] => squote ++ k ++ squote ++ ": " ++ pyRepr v
  | (k, v) :: f :: rest =>
      squote ++ k ++ squote ++ ": " ++ pyRepr v ++ ", " ++ pyReprFields (f :: rest)

end

/-- Python `str(v)` as used by f-string interpolation: identity on strings,
`repr` otherwise. -/
def pyStr : PyVal → String
  | PyVal.str s => s
  | v => pyRepr v

/-- Python `v == s` for a string constant `s` on the right, as in
`res.get("status", None) == STATUS_ERR`: true exactly when `v` is a string
equal to `s`; every non-string JSON value compares unequal to a string. -/
def pyEqStr (v : PyVal) (s : String) : Bool :=
  match v with
  | PyVal.str t => t = s
  | _ => false

/-- Python truthiness of a value, as tested by `if res.get("data", None):`. -/
def pyTruthy : PyVal → Bool
  | PyVal.none => false
  | PyVal.bool b => b
  | PyVal.int n => n != 0
  | PyVal.str s => s != ""
  | PyVal.list xs => !xs.isEmpty
  | PyVal.dict fields => !fields.isEmpty
  | PyVal.session => true

mutual

/-- Whether a value contains the (non-JSON-serializable) session object,
which makes `json.dumps` raise `TypeError`. -/
def containsSession : PyVal → Bool
  | PyVal.session => true
  | PyVal.list xs => itemsContainSession xs
  | PyVal.dict fields => fieldsContainSession fields
  | _ => false

/-- `containsSession` over the items of a list. -/
def itemsContainSession : List PyVal → Bool
  | [] => false
  | x :: rest => containsSession x || itemsContainSession rest

/-- `containsSession` over the values of a dict. -/
def fieldsContainSession : List (String × PyVal) → Bool
  | [] => false
  | (_, v) :: rest => containsSession v || fieldsContainSession rest

end

/-- Source constant `STATUS_OK`. -/
def STATUS_OK : String := "OK"

/-- Source constant `STATUS_ERR`. -/
def STATUS_ERR : String := "ERR"

/-- One row of the `log` table: `Dispatcher.log` fills `node` from
`self.node_name`, `status` from its `level` argument (a Python value, since
line 155 passes `res["status"]` through unchecked) and `message` from its
`message` argument; `id` and `created_at` are server-assigned and play no
role in the dispatch logic. -/
structure LogEntry where
  node : String
  status : PyVal
  message : String

/-- A reader capability: called with the (mutated) message, it either
returns a Python value or raises; a raised exception is modelled as
`Except.error` carrying its rendered description, which is all the
`except Exception as e` handler at line 151 consumes. -/
def Capability : Type := PyVal → Except String PyVal

/-- The dispatcher state that `handle_message` reads: the configured
`node_name` and the reader, modelled by what `getattr(self.reader, name,
None)` observes — a partial map from attribute names to capabilities. -/
structure Dispatcher where
  node_name : String
  reader : String → Option Capability

/-- Source method `Dispatcher.log` (lines 105-116): build the row that is
added and committed, with `node` always taken from `self.node_name`. -/
def Dispatcher.log (D : Dispatcher) (level : PyVal) (message : String) : LogEntry :=
  { node := D.node_name, status := level, message := message }

/-- Observable outcome of one `handle_message` call: the log rows appended
in order, the capability invocations performed (attribute name and the
message object passed), the values printed by the debug branch, and the
exception escaping `handle_message` to its caller, if any. -/
structure DispatchOutcome where
  logs : List LogEntry
  invoked : List (String × PyVal)
  printed : List PyVal
  raised : Option PyExc

/-- Lines 148-167 of `handle_message`, from the invocation try-block's
result onwards: `message2` is the message after line 149 inserted the
session, `attrName` the resolved attribute name, `capResult` the outcome
of `method(message)`.  A raised capability exception is logged CRITICAL
(lines 151-153).  Line 155 evaluates `res["status"]` first — outside any
try, so its `KeyError`/`TypeError` escapes — then re-reads
`message["method"]` and uppercases it for the routine completion entry.
Lines 159-161 add the error-detail entry when the status equals
`STATUS_ERR`.  Lines 163-165 print `json.dumps(res["data"])` when the
data field is truthy; `json.dumps` raises `TypeError` when the value
contains the session object. -/
def interpret_result (D : Dispatcher) (consumer_tag attrName : String)
    (message2 : PyVal) (capResult : Except String PyVal) : DispatchOutcome :=
  match capResult with
  | Except.error e =>
      { logs := [D.log (PyVal.str "CRITICAL") ("python error - " ++ e)],
        invoked := [(attrName, message2)], printed := [], raised := Option.none }
  | Except.ok (PyVal.dict resFields) =>
      match lookupField resFields "status" with
      | Option.none =>
          { logs := [], invoked := [(attrName, message2)], printed := [],
            raised := some (PyExc.keyError "status") }
      | some statusVal =>
          match pySubscript message2 "method" with
          | Except.error exc =>
              { logs := [], invoked := [(attrName, message2)], printed := [],
                raised := some exc }
          | Except.ok methodAgain =>
              match pyUpper methodAgain with
              | Except.error exc =>
                  { logs := [], invoked := [(attrName, message2)], printed := [],
                    raised := some exc }
              | Except.ok upperMethod =>
                  let entry1 := D.log statusVal (upperMethod ++ " - " ++ consumer_tag)
                  let errLogs :=
                    if pyEqStr (getD resFields "status" PyVal.none) STATUS_ERR then
                      [D.log (getD resFields "level" (PyVal.str "WARNING"))
                        (upperMethod ++ " - " ++ pyStr (getD resFields "message" (PyVal.str ""))
                          ++ " - " ++ consumer_tag)]
                    else []
                  let dataVal := getD resFields "data" PyVal.none
                  if pyTruthy dataVal then
                    if containsSession dataVal then
                      { logs := entry1 :: errLogs, invoked := [(attrName, message2)],
                        printed := [], raised := some PyExc.typeError }
                    else
                      { logs := entry1 :: errLogs, invoked := [(attrName, message2)],
                        printed := [dataVal], raised := Option.none }
                  else
                    { logs := entry1 :: errLogs, invoked := [(attrName, message2)],
                      printed := [], raised := Option.none }
  | Except.ok _ =>
      { logs := [], invoked := [(attrName, message2)], printed := [],
        raised := some PyExc.typeError }

/-- Source method `Dispatcher.handle_message` (lines 118-167).  `decoded`
is the outcome of `json.loads(body.decode("utf8"))`: `Except.error`
carries the rendered exception of a decode failure.  The first try-block
(lines 130-134) turns any decode failure into one WARNING row.  The second
try-block (lines 136-146) evaluates `message["method"]` — whose
`KeyError`/`TypeError` is NOT caught, since the handler only catches
`AttributeError` — then lower-cases it (`AttributeError` here IS caught
and logged as "Method is not defined") and resolves
`handle_<method.lower()>` on the reader, logging a WARNING when `getattr`
returns `None`.  Line 149 then inserts the session into the message under
`db_session` and line 150 invokes the capability; the rest is
`interpret_result`. -/
def handle_message (D : Dispatcher) (consumer_tag : String)
    (decoded : Except String PyVal) : DispatchOutcome :=
  match decoded with
  | Except.error e =>
      { logs := [D.log (PyVal.str "WARNING") ("Could not decode message: " ++ e)],
        invoked := [], printed := [], raised := Option.none }
  | Except.ok (PyVal.dict fields) =>
      match lookupField fields "method" with
      | Option.none =>
          { logs := [], invoked := [], printed := [],
            raised := some (PyExc.keyError "method") }
      | some methodVal =>
          match pyLower methodVal with
          | Except.error _ =>
              { logs := [D.log (PyVal.str "WARNING") "Method is not defined"],
                invoked := [], printed := [], raised := Option.none }
          | Except.ok lowered =>
              match D.reader ("handle_" ++ lowered) with
              | Option.none =>
                  { logs := [D.log (PyVal.str "WARNING")
                      ("Reader " ++ D.node_name ++ " does not implement method handle_"
                        ++ pyStr methodVal)],
                    invoked := [], printed := [], raised := Option.none }
              | some cap =>
                  let message2 := PyVal.dict (setField fields "db_session" PyVal.session)
                  interpret_result D consumer_tag ("handle_" ++ lowered) message2
                    (cap message2)
  | Except.ok _ =>
      { logs := [], invoked := [], printed := [], raised := some PyExc.typeError }

/-- The consumption loop of `Dispatcher.run` (lines 169-185):
`basic_consume` with `auto_ack=True` feeds each delivered message to
`handle_message`.  The result pairs the log rows appended, in delivery
order, with a flag that is `true` when the loop consumed every message:
an exception escaping the callback propagates out of `start_consuming`
and terminates the loop. -/
def consumeLoop (D : Dispatcher) (consumer_tag : String) :
    List (Except String PyVal) → List LogEntry × Bool
  | [] => ([], true)
  | decoded :: rest =>
      let out := handle_message D consumer_tag decoded
      match out.raised with
      | some _ => (out.logs, false)
      | Option.none =>
          let r := consumeLoop D consumer_tag rest
          (out.logs ++ r.1, r.2)

/-- A reader exposing no capabilities at all. -/
def emptyReader : String → Option Capability := fun _ => Option.none

/-- A dispatcher over the empty reader, node name `node-a`. -/
def testDispatcher : Dispatcher := { node_name := "node-a", reader := emptyReader }

/-- A capability that completes but returns a mapping with no `status` key. -/
def pingNoStatusCap : Capability := fun _ => Except.ok (PyVal.dict [])

/-- A reader exposing only `handle_ping`, bound to `pingNoStatusCap`. -/
def pingNoStatusReader : String → Option Capability :=
  fun name => if name = "handle_ping" then some pingNoStatusCap else Option.none

/-- Dispatcher over `pingNoStatusReader`. -/
def pingNoStatusDispatcher : Dispatcher :=
  { node_name := "node-a", reader := pingNoStatusReader }

/-- The reader capability of Scenario B: `handle_read` returns
`status ERR, message "sensor timeout", level ERROR`. -/
def readErrCap : Capability :=
  fun _ => Except.ok (PyVal.dict
    [("status", PyVal.str "ERR"), ("message", PyVal.str "sensor timeout"),
     ("level", PyVal.str "ERROR")])

/-- A reader exposing only `handle_read`, bound to `readErrCap`. -/
def readReader : String → Option Capability :=
  fun name => if name = "handle_read" then some readErrCap else Option.none

/-- Dispatcher over `readReader`. -/
def readErrDispatcher : Dispatcher := { node_name := "node-a", reader := readReader }

/-- A capability that raises: its rendered description is `boom`. -/
def faultCap : Capability := fun _ => Except.error "boom"

/-- A reader exposing only `handle_ping`, bound to the raising capability. -/
def faultReader : String → Option Capability :=
  fun name => if name = "handle_ping" then some faultCap else Option.none

/-- Dispatcher over `faultReader`. -/
def faultDispatcher : Dispatcher := { node_name := "node-a", reader := faultReader }

/-- A capability that completes normally with `status OK`. -/
def pingOkCap : Capability := fun _ => Except.ok (PyVal.dict [("status", PyVal.str "OK")])

/-- A reader exposing only `handle_ping`, bound to `pingOkCap`. -/
def pingOkReader : String → Option Capability :=
  fun name => if name = "handle_ping" then some pingOkCap else Option.none

/-- Dispatcher over `pingOkReader`. -/
def pingOkDispatcher : Dispatcher := { node_name := "node-a", reader := pingOkReader }

/-- Inserting a binding for one key does not disturb the binding of any
other key. -/
theorem lookupField_setField_ne (fields : List (String × PyVal)) (k key : String)
    (v : PyVal) (h : key ≠ k) :
    lookupField (setField fields k v) key = lookupField fields key := by
  induction fields with
  | nil => simp [setField, lookupField, Ne.symm h]
  | cons p rest ih =>
      obtain ⟨pk, pv⟩ := p
      by_cases hp : pk = k
      · subst hp
        simp [setField, lookupField, Ne.symm h]
      · simp only [setField, if_neg hp, lookupField]
        split
        · rfl
        · exact ih

/-- Whatever the capability produced or raised, the invocation record of
`interpret_result` is the single call performed at line 150. -/
theorem interpret_result_invoked (D : Dispatcher) (consumer_tag attrName : String)
    (message2 : PyVal) (capResult : Except String PyVal) :
    (interpret_result D consumer_tag attrName message2 capResult).invoked
      = [(attrName, message2)] := by
  cases capResult with
  | error e => rfl
  | ok v =>
      cases v with
      | dict resFields =>
          simp only [interpret_result]
          repeat' split
          all_goals rfl
      | none => rfl
      | bool b => rfl
      | int n => rfl
      | str s => rfl
      | list xs => rfl
      | session => rfl

/-- Every row `interpret_result` appends goes through `Dispatcher.log`, so
it carries the dispatcher's node name. -/
theorem interpret_result_log_node (D : Dispatcher) (consumer_tag attrName : String)
    (message2 : PyVal) (capResult : Except String PyVal) :
    ∀ entry ∈ (interpret_result D consumer_tag attrName message2 capResult).logs,
      entry.node = D.node_name := by
  intro entry h
  cases capResult with
  | error e =>
      simp only [interpret_result, List.mem_singleton] at h
      subst h; rfl
  | ok v =>
      cases v with
      | dict resFields =>
          cases hsv : lookupField resFields "status" with
          | none => simp [interpret_result, hsv] at h
          | some statusVal =>
              cases hms : pySubscript message2 "method" with
              | error exc => simp [interpret_result, hsv, hms] at h
              | ok methodAgain =>
                  cases hup : pyUpper methodAgain with
                  | error exc => simp [interpret_result, hsv, hms, hup] at h
                  | ok upperMethod =>
                      simp only [interpret_result, hsv, hms, hup] at h
                      split at h
                      · split at h
                        all_goals {
                          rcases List.mem_cons.mp h with h | h
                          · subst h; rfl
                          · split at h
                            · simp only [List.mem_singleton] at h
                              subst h; rfl
                            · simp at h }
                      · rcases List.mem_cons.mp h with h | h
                        · subst h; rfl
                        · split at h
                          · simp only [List.mem_singleton] at h
                            subst h; rfl
                          · simp at h
      | none => simp [interpret_result] at h
      | bool b => simp [interpret_result] at h
      | int n => simp [interpret_result] at h
      | str s => simp [interpret_result] at h
      | list xs => simp [interpret_result] at h
      | session => simp [interpret_result] at h

/-- C1: the claim says that an envelope whose bytes are valid JSON but whose
decoded value lacks a `method` field is handled by one WARNING row and a
clean return.  The code disagrees: the handler around the resolution step
catches only `AttributeError`, while `message["method"]` on a map without
the key raises `KeyError`, so the envelope `b"{}"` produces no log row at
all and the exception escapes `handle_message` to its caller. -/
theorem missing_method_field_raises_to_caller :
    handle_message testDispatcher "ctag" (Except.ok (PyVal.dict [])) =
      { logs := [], invoked := [], printed := [],
        raised := some (PyExc.keyError "method") } := rfl

/-- C2: the claim says a capability result lacking `status` is handled as a
critical logging case and `handle_message` returns normally.  The code
disagrees: line 155 evaluates `res["status"]` outside every try-block, so
for the envelope `{"method":"PING"}` with `handle_ping` returning `{}` the
`KeyError` escapes `handle_message`, with no log row for the envelope. -/
theorem missing_status_key_raises_to_caller :
    handle_message pingNoStatusDispatcher "ctag"
        (Except.ok (PyVal.dict [("method", PyVal.str "PING")])) =
      { logs := [],
        invoked := [("handle_ping",
          PyVal.dict [("method", PyVal.str "PING"), ("db_session", PyVal.session)])],
        printed := [], raised := some (PyExc.keyError "status") } := rfl

/-- C3: the claim says every delivered envelope produces at least one
LogEntry.  The code disagrees: the valid-JSON envelope `b"{}"` reaches the
uncaught `KeyError` of `message["method"]` before any `self.log` call, so
its dispatch appends zero rows. -/
theorem missing_method_field_logs_nothing :
    (handle_message testDispatcher "ctag" (Except.ok (PyVal.dict []))).logs = [] := rfl

/-- C6: any byte payload whose decode raises — malformed JSON as well as
invalid UTF-8 — makes dispatch append exactly one WARNING row carrying the
decode error, invoke no capability, print nothing and raise nothing. -/
theorem decode_failure_logs_one_warning (D : Dispatcher) (consumer_tag e : String) :
    handle_message D consumer_tag (Except.error e) =
      { logs := [{ node := D.node_name, status := PyVal.str "WARNING",
                   message := "Could not decode message: " ++ e }],
        invoked := [], printed := [], raised := Option.none } := rfl

/-- C7: when the decoded envelope has a string-valued `method` with no
matching `handle_<lowercased method>` attribute on the reader, dispatch
appends exactly one WARNING row, whose text names both the node and the
method, and invokes no capability. -/
theorem unknown_method_logs_one_warning
    (node consumer_tag s : String) (fields : List (String × PyVal))
    (reader : String → Option Capability)
    (hm : lookupField fields "method" = some (PyVal.str s))
    (hr : reader ("handle_" ++ strLower s) = Option.none) :
    handle_message { node_name := node, reader := reader } consumer_tag
        (Except.ok (PyVal.dict fields)) =
      { logs := [{ node := node, status := PyVal.str "WARNING",
                   message := "Reader " ++ node
                     ++ " does not implement method handle_" ++ s }],
        invoked := [], printed := [], raised := Option.none } := by
  simp [handle_message, hm, pyLower, hr, Dispatcher.log, pyStr]

/-- C7 witness: Scenario D at the node `node-a`: envelope
`{"method":"UNKNOWN"}` against the empty reader. -/
theorem unknown_method_logs_one_warning_witness :
    handle_message testDispatcher "ctag"
        (Except.ok (PyVal.dict [("method", PyVal.str "UNKNOWN")])) =
      { logs := [{ node := "node-a", status := PyVal.str "WARNING",
                   message := "Reader node-a does not implement method handle_UNKNOWN" }],
        invoked := [], printed := [], raised := Option.none } :=
  unknown_method_logs_one_warning "node-a" "ctag" "UNKNOWN"
    [("method", PyVal.str "UNKNOWN")] emptyReader rfl rfl

/-- C9: when the decoded envelope binds `method` to a non-string value,
lower-casing it raises `AttributeError`, which the resolution try-block
does catch: dispatch appends exactly one WARNING row with the message
`Method is not defined` and invokes no capability. -/
theorem non_string_method_logs_one_warning
    (node consumer_tag : String) (fields : List (String × PyVal))
    (reader : String → Option Capability) (v : PyVal)
    (hm : lookupField fields "method" = some v)
    (hv : ∀ s, v ≠ PyVal.str s) :
    handle_message { node_name := node, reader := reader } consumer_tag
        (Except.ok (PyVal.dict fields)) =
      { logs := [{ node := node, status := PyVal.str "WARNING",
                   message := "Method is not defined" }],
        invoked := [], printed := [], raised := Option.none } := by
  have hl : pyLower v = Except.error PyExc.attributeError := by
    cases v <;> first | rfl | exact absurd rfl (hv _)
  simp [handle_message, hm, hl, Dispatcher.log]

/-- C9 witness: envelope `{"method": 3}` against the empty reader. -/
theorem non_string_method_logs_one_warning_witness :
    handle_message testDispatcher "ctag"
        (Except.ok (PyVal.dict [("method", PyVal.int 3)])) =
      { logs := [{ node := "node-a", status := PyVal.str "WARNING",
                   message := "Method is not defined" }],
        invoked := [], printed := [], raised := Option.none } :=
  non_string_method_logs_one_warning "node-a" "ctag" [("method", PyVal.int 3)]
    emptyReader (PyVal.int 3) rfl (fun s h => by cases h)

/-- C5: a capability that raises is absorbed at the invocation try-block:
dispatch appends exactly one CRITICAL row carrying the fault description,
`handle_message` raises nothing to its caller, and the consumption loop
goes on to process the remaining messages unchanged. -/
theorem capability_fault_contained
    (node consumer_tag s e : String) (fields : List (String × PyVal))
    (reader : String → Option Capability) (cap : Capability)
    (rest : List (Except String PyVal))
    (hm : lookupField fields "method" = some (PyVal.str s))
    (hr : reader ("handle_" ++ strLower s) = some cap)
    (hc : cap (PyVal.dict (setField fields "db_session" PyVal.session))
        = Except.error e) :
    (handle_message { node_name := node, reader := reader } consumer_tag
        (Except.ok (PyVal.dict fields))).logs
      = [{ node := node, status := PyVal.str "CRITICAL",
           message := "python error - " ++ e }]
    ∧ (handle_message { node_name := node, reader := reader } consumer_tag
        (Except.ok (PyVal.dict fields))).raised = Option.none
    ∧ consumeLoop { node_name := node, reader := reader } consumer_tag
        (Except.ok (PyVal.dict fields) :: rest)
      = ({ node := node, status := PyVal.str "CRITICAL",
           message := "python error - " ++ e }
          :: (consumeLoop { node_name := node, reader := reader } consumer_tag rest).1,
         (consumeLoop { node_name := node, reader := reader } consumer_tag rest).2) := by
  have h1 : handle_message { node_name := node, reader := reader } consumer_tag
      (Except.ok (PyVal.dict fields)) =
      { logs := [{ node := node, status := PyVal.str "CRITICAL",
                   message := "python error - " ++ e }],
        invoked := [("handle_" ++ strLower s,
          PyVal.dict (setField fields "db_session" PyVal.session))],
        printed := [], raised := Option.none } := by
    simp [handle_message, hm, pyLower, hr, hc, interpret_result, Dispatcher.log]
  refine ⟨by rw [h1], by rw [h1], ?_⟩
  simp [consumeLoop, h1]

/-- C5 witness: envelope `{"method":"PING"}` whose `handle_ping` raises
`boom`, followed by one more (malformed) message that the loop still
processes. -/
theorem capability_fault_contained_witness :
    (handle_message faultDispatcher "ctag"
        (Except.ok (PyVal.dict [("method", PyVal.str "PING")]))).logs
      = [{ node := "node-a", status := PyVal.str "CRITICAL",
           message := "python error - boom" }]
    ∧ (handle_message faultDispatcher "ctag"
        (Except.ok (PyVal.dict [("method", PyVal.str "PING")]))).raised = Option.none
    ∧ consumeLoop faultDispatcher "ctag"
        [Except.ok (PyVal.dict [("method", PyVal.str "PING")]), Except.error "bad"]
      = ([{ node := "node-a", status := PyVal.str "CRITICAL",
            message := "python error - boom" },
          { node := "node-a", status := PyVal.str "WARNING",
            message := "Could not decode message: bad" }], true) :=
  capability_fault_contained "node-a" "ctag" "PING" "boom"
    [("method", PyVal.str "PING")] faultReader faultCap [Except.error "bad"]
    rfl rfl rfl

/-- C4: when the capability completes with a mapping whose `status` is
`ERR`, dispatch appends exactly two rows for the envelope: the routine
completion entry (logged at the result's own status), then one entry at
the result's declared `level` — WARNING when none is declared — whose text
carries the result's `message`. -/
theorem err_result_logs_two_entries
    (node consumer_tag s : String) (fields resFields : List (String × PyVal))
    (reader : String → Option Capability) (cap : Capability)
    (hm : lookupField fields "method" = some (PyVal.str s))
    (hr : reader ("handle_" ++ strLower s) = some cap)
    (hc : cap (PyVal.dict (setField fields "db_session" PyVal.session))
        = Except.ok (PyVal.dict resFields))
    (hs : lookupField resFields "status" = some (PyVal.str STATUS_ERR)) :
    (handle_message { node_name := node, reader := reader } consumer_tag
        (Except.ok (PyVal.dict fields))).logs =
      [{ node := node, status := PyVal.str STATUS_ERR,
         message := strUpper s ++ " - " ++ consumer_tag },
       { node := node, status := getD resFields "level" (PyVal.str "WARNING"),
         message := strUpper s ++ " - " ++ pyStr (getD resFields "message" (PyVal.str ""))
           ++ " - " ++ consumer_tag }] := by
  have hmm : lookupField (setField fields "db_session" PyVal.session) "method"
      = some (PyVal.str s) := by
    rw [lookupField_setField_ne fields "db_session" "method" PyVal.session (by decide)]
    exact hm
  simp only [handle_message, hm, pyLower, hr]
  simp only [hc, interpret_result, hs, pySubscript, hmm, pyUpper, STATUS_ERR]
  have hget : getD resFields "status" PyVal.none = PyVal.str "ERR" := by
    simp [getD, hs, STATUS_ERR]
  rw [hget]
  simp only [pyEqStr, decide_True, if_true, Dispatcher.log]
  split
  · split
    · rfl
    · rfl
  · rfl

/-- C4 witness: Scenario B: envelope `{"method":"READ"}` whose
`handle_read` returns `status ERR, message "sensor timeout", level ERROR`
yields exactly the completion row and the ERROR-severity detail row. -/
theorem err_result_logs_two_entries_witness :
    (handle_message readErrDispatcher "ctag"
        (Except.ok (PyVal.dict [("method", PyVal.str "READ")]))).logs =
      [{ node := "node-a", status := PyVal.str "ERR", message := "READ - ctag" },
       { node := "node-a", status := PyVal.str "ERROR",
         message := "READ - sensor timeout - ctag" }] :=
  err_result_logs_two_entries "node-a" "ctag" "READ" [("method", PyVal.str "READ")]
    [("status", PyVal.str "ERR"), ("message", PyVal.str "sensor timeout"),
     ("level", PyVal.str "ERROR")]
    readReader readErrCap rfl rfl rfl rfl

/-- C8 counterexample: the claim says the decoded map is not modified
between construction and discard, but line 149 inserts the session into
the very same dict before passing it to the capability: for the envelope
`{"method":"PING"}` the capability receives a map that differs from the
decoded one. -/
theorem envelope_mutated_before_invocation :
    (handle_message pingOkDispatcher "ctag"
        (Except.ok (PyVal.dict [("method", PyVal.str "PING")]))).invoked
      = [("handle_ping",
          PyVal.dict [("method", PyVal.str "PING"), ("db_session", PyVal.session)])]
    ∧ PyVal.dict [("method", PyVal.str "PING"), ("db_session", PyVal.session)]
        ≠ PyVal.dict [("method", PyVal.str "PING")] :=
  ⟨rfl, by simp⟩

/-- C8 amended: between decoding and discard the dispatch core modifies
the decoded map exactly once — line 149 stores the shared session under
the key `db_session` just before invoking the capability — and this is
the only change: the binding of every other key is untouched. -/
theorem envelope_mutation_only_db_session
    (node consumer_tag s : String) (fields : List (String × PyVal))
    (reader : String → Option Capability) (cap : Capability)
    (hm : lookupField fields "method" = some (PyVal.str s))
    (hr : reader ("handle_" ++ strLower s) = some cap) :
    (handle_message { node_name := node, reader := reader } consumer_tag
        (Except.ok (PyVal.dict fields))).invoked
      = [("handle_" ++ strLower s,
          PyVal.dict (setField fields "db_session" PyVal.session))]
    ∧ ∀ key, key ≠ "db_session" →
        lookupField (setField fields "db_session" PyVal.session) key
          = lookupField fields key := by
  constructor
  · simp only [handle_message, hm, pyLower, hr]
    exact interpret_result_invoked _ _ _ _ _
  · intro key hkey
    exact lookupField_setField_ne fields "db_session" key PyVal.session hkey

/-- C8 amended witness: for the envelope `{"method":"PING"}` the capability
receives exactly the decoded map plus the `db_session` binding. -/
theorem envelope_mutation_only_db_session_witness :
    (handle_message pingOkDispatcher "ctag"
        (Except.ok (PyVal.dict [("method", PyVal.str "PING")]))).invoked
      = [("handle_ping",
          PyVal.dict [("method", PyVal.str "PING"), ("db_session", PyVal.session)])] :=
  (envelope_mutation_only_db_session "node-a" "ctag" "PING"
    [("method", PyVal.str "PING")] pingOkReader pingOkCap rfl rfl).1

/-- C10: every row any dispatch path appends goes through `Dispatcher.log`,
which stamps it with the dispatcher's configured `node_name`. -/
theorem log_entries_carry_node_name (D : Dispatcher) (consumer_tag : String)
    (decoded : Except String PyVal) :
    ∀ entry ∈ (handle_message D consumer_tag decoded).logs,
      entry.node = D.node_name := by
  intro entry h
  cases decoded with
  | error e =>
      simp only [handle_message, List.mem_singleton] at h
      subst h; rfl
  | ok v =>
      cases v with
      | dict fields =>
          cases hmk : lookupField fields "method" with
          | none => simp [handle_message, hmk] at h
          | some methodVal =>
              cases hlo : pyLower methodVal with
              | error exc =>
                  simp only [handle_message, hmk, hlo, List.mem_singleton] at h
                  subst h; rfl
              | ok lowered =>
                  cases hre : D.reader ("handle_" ++ lowered) with
                  | none =>
                      simp only [handle_message, hmk, hlo, hre, List.mem_singleton] at h
                      subst h; rfl
                  | some cap =>
                      simp only [handle_message, hmk, hlo, hre] at h
                      exact interpret_result_log_node _ _ _ _ _ entry h
      | none => simp [handle_message] at h
      | bool b => simp [handle_message] at h
      | int n => simp [handle_message] at h
      | str s => simp [handle_message] at h
      | list xs => simp [handle_message] at h
      | session => simp [handle_message] at h

/-- C10 witness: the single row of a decode failure at `node-a` carries the
node name `node-a`. -/
theorem log_entries_carry_node_name_witness :
    LogEntry.node { node := "node-a", status := PyVal.str "WARNING",
                    message := "Could not decode message: bad" } = "node-a" :=
  log_entries_carry_node_name testDispatcher "ctag" (Except.error "bad")
    { node := "node-a", status := PyVal.str "WARNING",
      message := "Could not decode message: bad" }
    (List.mem_singleton.mpr rfl)
